import Mathlib

/-!
# Verification of the smart-error factory (src/index.js)

A shallow embedding of the library: `create(name, errors)` builds an error
variant (a `SmartError` subclass) whose instances carry `code`, `metadata`,
`cause` and a captured `stack`, resolve `message` by looking the code up in
the closed-over `errors` table at access time, expose one static creator and
one `is<Code>` predicate getter per declared code, and serialize recursively
via `toJSON`.

JavaScript values are embedded as the inductive `JsValue`, restricted to the
shapes this library inspects: the factory arguments are only examined through
`typeof` and `Object.keys`, instances only through their `_props` fields, and
causes only through `isSmartError` / `instanceof Error`.  Plain objects are
modelled with string-valued fields (the factory uses them as code→message
tables); a variant's identity (the fresh `function SmartError` object each
`create` call allocates) is modelled by an allocation id `Nat`.
-/

namespace SmartErr

/-- A JavaScript value, at the granularity the library observes.
`genericError` is an `Error` that is not a smart-error instance: it carries an
optional `code` own property (absent on a plain `Error`), a `message` and a
`stack`.  `smart` is an instance of some variant: it stores the variant's
allocation id and name (closed over by its prototype getters) together with
the `_props` fields `code`, `metadata`, `cause`, `stack` set by the
constructor (src/index.js lines 43-57). -/
inductive JsValue where
  | undefined
  | jsNull
  | str (s : String)
  | num (n : Int)
  | boolean (b : Bool)
  | obj (fields : List (String × String))
  | arr (elems : List String)
  | genericError (code : Option String) (message : String) (stack : String)
  | smart (variantId : Nat) (name : String) (code : String)
          (metadata : JsValue) (cause : JsValue) (stack : String)
  deriving DecidableEq, Repr

/-- JavaScript `typeof`.  Note `typeof null === 'object'`. -/
def jsTypeof : JsValue → String
  | .undefined => "undefined"
  | .jsNull => "object"
  | .str _ => "string"
  | .num _ => "number"
  | .boolean _ => "boolean"
  | .obj _ => "object"
  | .arr _ => "object"
  | .genericError _ _ _ => "object"
  | .smart _ _ _ _ _ _ => "object"

/-- JavaScript string coercion `String(v)` as used in the assertion message
template (src/index.js line 20).  `String([]) === ''` and
`String({}) === '[object Object]'`.  Error values coerce through their own
`toString`; only the non-error cases are exercised by the factory's
assertions. -/
def jsToString : JsValue → String
  | .undefined => "undefined"
  | .jsNull => "null"
  | .str s => s
  | .num n => toString n
  | .boolean b => if b then "true" else "false"
  | .obj _ => "[object Object]"
  | .arr es => String.intercalate "," es
  | .genericError _ m _ => "Error: " ++ m
  | .smart _ nm _ _ _ _ => nm

/-- `assert(name, value, type)` (src/index.js lines 17-23): returns the
`TypeError` message when `typeof value !== type`, `none` when the check
passes. -/
def assertFail (nm : String) (value : JsValue) (ty : String) : Option String :=
  let typeOfValue := jsTypeof value
  if typeOfValue ≠ ty then
    some (nm ++ ": expected " ++ ty ++ "; got " ++ typeOfValue ++ ": \"" ++
          jsToString value ++ "\"")
  else
    none

/-- The variant type returned by `create`: the fresh `function SmartError`
object is identified by an allocation id (each evaluation of the factory body
allocates a new function object, hence a fresh id), and closes over the
variant `name` and the `errors` code→message table. -/
structure Variant where
  id : Nat
  name : String
  codes : List (String × String)
  deriving DecidableEq, Repr

/-- Outcome of a `create` call: the variant, or a thrown `TypeError`. -/
inductive CreateResult where
  | ok (T : Variant)
  | typeError (msg : String)
  deriving DecidableEq, Repr

/-- `Object.keys(errors)` together with the corresponding values, for the
object-typed values that reach line 148.  Own enumerable properties: the
fields of a plain object, the index keys of an array; a generic error's
`message`/`stack` and a smart instance's `_props` are non-enumerable. -/
def entriesOf : JsValue → List (String × String)
  | .obj fields => fields
  | .arr es => es.enum.map (fun p => (toString p.1, p.2))
  | _ => []

/-- `create(name, errors)` (src/index.js lines 32-161): assert `name` is a
string and `errors` has `typeof` `'object'` (which `null` satisfies); then
`Object.keys(errors)` at line 148 throws a generic `TypeError` when `errors`
is `null`; otherwise the new variant is returned.  `freshId` models the
allocation of the `function SmartError` object. -/
def create (freshId : Nat) (name errors : JsValue) : CreateResult :=
  match assertFail "name" name "string" with
  | some m => .typeError m
  | none =>
    match assertFail "errors" errors "object" with
    | some m => .typeError m
    | none =>
      if errors = .jsNull then
        .typeError "Cannot convert undefined or null to object"
      else
        .ok { id := freshId
            , name := match name with | .str s => s | _ => ""
            , codes := entriesOf errors }

/-- `v instanceof Error`: true exactly for error values (smart instances
inherit from `Error` via `inherits(SmartError, Error)`, line 58). -/
def isErrorValue : JsValue → Bool
  | .genericError _ _ _ => true
  | .smart _ _ _ _ _ _ => true
  | _ => false

/-- The low-level constructor `new SmartError(code, metadata, cause)`
(src/index.js lines 43-57): when `metadata instanceof Error` the second
argument is reinterpreted as the cause and `metadata` is left `undefined`;
the `_props` record `{code, metadata, cause}` is stored and the stack trace
is captured (the captured text is environment-dependent and passed in as
`stack`).  The body contains no validation and no throw: it is total. -/
def construct (T : Variant) (code : String) (metadata cause : JsValue)
    (stack : String) : JsValue :=
  if isErrorValue metadata then
    .smart T.id T.name code .undefined metadata stack
  else
    .smart T.id T.name code metadata cause stack

/-- The per-code static creator `SmartError[K] = function (metadata, cause)`
(src/index.js lines 149-151): builds `new SmartError(K, metadata, cause)`. -/
def Variant.creatorFn (T : Variant) (K : String) (metadata cause : JsValue)
    (stack : String) : JsValue :=
  construct T K metadata cause stack

/-- The `code` getter: `this._props.code` (line 70). -/
def propCode : JsValue → String
  | .smart _ _ c _ _ _ => c
  | _ => ""

/-- The `metadata` getter: `this._props.metadata` (line 80). -/
def propMetadata : JsValue → JsValue
  | .smart _ _ _ m _ _ => m
  | _ => .undefined

/-- The `cause` getter: `this._props.cause` (line 85). -/
def propCause : JsValue → JsValue
  | .smart _ _ _ _ c _ => c
  | _ => .undefined

/-- The `stack` getter: `this._props.stack` (line 90). -/
def propStack : JsValue → String
  | .smart _ _ _ _ _ s => s
  | _ => ""

/-- The `name` getter: the closed-over variant name (line 65). -/
def propName : JsValue → String
  | .smart _ nm _ _ _ _ => nm
  | _ => ""

/-- Own-property lookup `errors[k]` in a code→message table: first match
(JavaScript object keys are unique), `none` standing for `undefined` when
the key is absent. -/
def tableGet : List (String × String) → String → Option String
  | [], _ => none
  | (k, v) :: rest, c => if k = c then some v else tableGet rest c

/-- The keys of a code→message table (`Object.keys(errors)`). -/
def tableKeys (tbl : List (String × String)) : List String :=
  tbl.map Prod.fst

/-- The `message` getter (src/index.js lines 72-76): `errors[this._props.code]`,
evaluated against the *current* contents of the `errors` table at access time
(`currentCodes`); nothing is cached in `_props` at construction. -/
def propMessage (currentCodes : List (String × String)) (v : JsValue) :
    Option String :=
  tableGet currentCodes (propCode v)

/-- The `isSmartError` getter (lines 92-96): `this instanceof SmartError`
where `SmartError` is the instance's own variant constructor, hence true on
every smart instance and absent (`undefined`, falsy) on every other value. -/
def isSmartErrorProp : JsValue → Bool
  | .smart _ _ _ _ _ _ => true
  | _ => false

/-- `v instanceof T` for a variant `T`: the prototype chain links an instance
to the `function SmartError` object of exactly the `create` call that built
its variant, modelled by comparing allocation ids. -/
def instanceOf (v : JsValue) (T : Variant) : Bool :=
  match v with
  | .smart vid _ _ _ _ _ => vid == T.id
  | _ => false

/-- The `is<K>` predicate getter attached for each declared code `K`
(src/index.js lines 153-157): `this._props.code === K`. -/
def isPred (K : String) (v : JsValue) : Bool :=
  match v with
  | .smart _ _ c _ _ _ => c == K
  | _ => false

/-- `metadata != null` / `cause != null`: loose inequality against `null`,
excluding exactly `null` and `undefined`. -/
def isNullish : JsValue → Bool
  | .undefined => true
  | .jsNull => true
  | _ => false

/-- The value returned by `toJSON` (src/index.js lines 105-129): the plain
structure `{name, code, metadata?, cause?, stack}` (`smartOut`, with `none`
for an omitted optional field), the reduced generic-error cause
`{code, message, stack}` (`errOut`), or an arbitrary value embedded as-is
(`raw`). -/
inductive Json where
  | smartOut (name code : String) (metadata : Option JsValue)
             (cause : Option Json) (stack : String)
  | errOut (code : Option String) (message : String) (stack : String)
  | raw (v : JsValue)

/-- `SmartError.prototype.toJSON` (src/index.js lines 105-129): reads
`{code, metadata, cause, stack}` from `_props`, includes `metadata` only when
not nullish, and shapes a non-nullish `cause` by: truthy `cause.isSmartError`
→ `cause.toJSON('cause')`; else `cause instanceof Error` →
`{code: cause.code, message: cause.message, stack: cause.stack}`; else the
value itself.  `stack` is always set last.  On a non-instance the method is
not defined; such values are mapped to `raw`. -/
def toJSON : JsValue → Json
  | .smart _vid nm cd md cs stk =>
      Json.smartOut nm cd
        (if isNullish md then none else some md)
        (if isNullish cs then none
         else if isSmartErrorProp cs then some (toJSON cs)
         else match cs with
              | .genericError c m s => some (Json.errOut c m s)
              | other => some (Json.raw other))
        stk
  | v => Json.raw v

/-- One `toJSON` call observed together with the instance it leaves behind:
the method body destructures `this._props` (reads only) and builds a fresh
local `result`; the instance the caller retains afterwards is rebuilt here
from exactly the fields the body read, so the embedding records what state
the call leaves. -/
def toJSONcall : JsValue → Json × JsValue
  | .smart vid nm cd md cs stk =>
      (toJSON (.smart vid nm cd md cs stk), .smart vid nm cd md cs stk)
  | v => (toJSON v, v)

end SmartErr

namespace SmartErr

/-- Substring test used to state what a thrown message does (not) mention:
`listHasPrefix as bs` holds when `bs` is a prefix of `as`. -/
def listHasPrefix : List Char → List Char → Bool
  | _, [] => true
  | [], _ :: _ => false
  | a :: as, b :: bs => a == b && listHasPrefix as bs

/-- `listHasSeg hay needle`: `needle` occurs as a contiguous segment. -/
def listHasSeg : List Char → List Char → Bool
  | [], needle => needle.isEmpty
  | h :: t, needle => listHasPrefix (h :: t) needle || listHasSeg t needle

/-- Whether `pat` occurs inside `msg`. -/
def mentionsText (msg pat : String) : Bool :=
  listHasSeg msg.toList pat.toList

/-- A key absent from a table looks up to `none` (`undefined`). -/
theorem tableGet_eq_none_of_not_mem (tbl : List (String × String))
    (c : String) (h : c ∉ tableKeys tbl) : tableGet tbl c = none := by
  induction tbl with
  | nil => rfl
  | cons p rest ih =>
    obtain ⟨k, v⟩ := p
    simp only [tableKeys, List.map_cons, List.mem_cons, not_or] at h
    simp only [tableGet]
    rw [if_neg (fun hk => h.1 hk.symm)]
    exact ih (by simpa [tableKeys] using h.2)

end SmartErr

namespace SmartErr

/-- C3: every malformed factory invocation in the list — `create()`,
`create(null)`, `create('X')` with codes missing, `create(42, ... )`,
`create(a plain object, ... )`, `create(an array, ... )`, `create(null, null)`
— throws a `TypeError` from `assert` whose message carries the offending
parameter name, its expected type, and the actual `typeof`/coerced value
received. -/
theorem create_malformed_rejected :
    create 0 .undefined .undefined =
      .typeError "name: expected string; got undefined: \"undefined\"" ∧
    create 0 .jsNull .undefined =
      .typeError "name: expected string; got object: \"null\"" ∧
    create 0 (.str "X") .undefined =
      .typeError "errors: expected object; got undefined: \"undefined\"" ∧
    create 0 (.num 42) (.obj []) =
      .typeError "name: expected string; got number: \"42\"" ∧
    create 0 (.obj []) (.obj []) =
      .typeError "name: expected string; got object: \"[object Object]\"" ∧
    create 0 (.arr []) (.obj []) =
      .typeError "name: expected string; got object: \"\"" ∧
    create 0 .jsNull .jsNull =
      .typeError "name: expected string; got object: \"null\"" :=
  ⟨rfl, rfl, rfl, rfl, rfl, rfl, rfl⟩

/-- C4 counterexample: at `name = 'X'`, `create('X', null)` does throw, but
`typeof null === 'object'` satisfies the `errors` assertion, so the failure
comes from `Object.keys(null)` with a generic message that mentions neither
the `errors` parameter nor an expected type. -/
theorem create_null_codes_counterexample :
    create 0 (.str "X") .jsNull =
      .typeError "Cannot convert undefined or null to object" ∧
    mentionsText "Cannot convert undefined or null to object" "errors" = false ∧
    mentionsText "Cannot convert undefined or null to object" "expected" = false :=
  ⟨rfl, by decide, by decide⟩

/-- C4 (amended): for every string name, `create(name, null)` still fails —
`null` passes the `typeof`-based argument assertion (its `typeof` is
`'object'`), and the throw happens at the `Object.keys(errors)` step with the
generic `TypeError` `"Cannot convert undefined or null to object"`, which
does not identify the `errors` parameter or its expected type. -/
theorem create_null_codes_throws (freshId : Nat) (s : String) :
    create freshId (.str s) .jsNull =
      .typeError "Cannot convert undefined or null to object" := rfl

end SmartErr

namespace SmartErr

/-- C1 counterexample: with `T = create('MyError', (Unexpected ↦ 'boom'))`
and `m` a generic `Error`, `T.Unexpected(m).metadata` is `undefined`, not
`m`: the constructor reinterprets an error-like second argument as the
cause, so the claim's "every metadata value m" fails at error-like `m`. -/
theorem creator_contract_counterexample :
    create 0 (.str "MyError") (.obj [("Unexpected", "boom")]) =
      .ok ⟨0, "MyError", [("Unexpected", "boom")]⟩ ∧
    propMetadata
      ((Variant.mk 0 "MyError" [("Unexpected", "boom")]).creatorFn
        "Unexpected" (.genericError none "io failure" "st0") .undefined "st1") ≠
      .genericError none "io failure" "st0" :=
  ⟨rfl, by decide⟩

/-- C1 (amended): for a variant `T = create(name, codes)`, a declared code
`K` and a metadata value `m` that is not error-like (an error-like `m` is
reinterpreted as the cause by the documented constructor rule): `T.K(m)` is
an instance of `T`, its `code` is `K`, its `metadata` is `m`, its `message`
is `codes[K]`, its `is<K>` predicate is true, and every other declared
`is<K'>` predicate on it is false. -/
theorem creator_contract (freshId : Nat) (s : String)
    (fields : List (String × String)) (T : Variant) (K : String)
    (m : JsValue) (stk : String)
    (hT : create freshId (.str s) (.obj fields) = .ok T)
    (hK : K ∈ tableKeys T.codes)
    (hm : isErrorValue m = false) :
    instanceOf (T.creatorFn K m .undefined stk) T = true ∧
    propCode (T.creatorFn K m .undefined stk) = K ∧
    propMetadata (T.creatorFn K m .undefined stk) = m ∧
    propMessage T.codes (T.creatorFn K m .undefined stk) = tableGet T.codes K ∧
    isPred K (T.creatorFn K m .undefined stk) = true ∧
    ∀ K' ∈ tableKeys T.codes, K' ≠ K →
      isPred K' (T.creatorFn K m .undefined stk) = false := by
  refine ⟨?_, ?_, ?_, ?_, ?_, ?_⟩ <;>
    simp only [Variant.creatorFn, construct, hm, Bool.false_eq_true,
      if_false, instanceOf, propCode, propMetadata, propMessage, isPred,
      beq_self_eq_true]
  intro K' _ hne
  simpa using fun h => hne h.symm

/-- C1 witness: a concrete variant, declared code and plain metadata value
satisfying the hypotheses of `creator_contract`. -/
theorem creator_contract_witness :
    propMetadata
      ((Variant.mk 7 "MyError" [("Unexpected", "u"), ("TimedOut", "t")]).creatorFn
        "TimedOut" (.str "meta") .undefined "st") = .str "meta" :=
  (creator_contract 7 "MyError" [("Unexpected", "u"), ("TimedOut", "t")]
    ⟨7, "MyError", [("Unexpected", "u"), ("TimedOut", "t")]⟩
    "TimedOut" (.str "meta") "st" rfl (by decide) rfl).2.2.1

/-- C6: in the low-level constructor, whenever the second argument is
error-like (`metadata instanceof Error`), the instance's `cause` is that
argument and its `metadata` is `undefined`, for every value of the `cause`
argument and the other parameters. -/
theorem constructor_error_second_argument (T : Variant) (code : String)
    (m c : JsValue) (stk : String) (h : isErrorValue m = true) :
    propCause (construct T code m c stk) = m ∧
    propMetadata (construct T code m c stk) = .undefined := by
  simp [construct, h, propCause, propMetadata]

/-- C6 witness: a generic error passed as the second argument, with a
distinct value in the third slot, lands in `cause`. -/
theorem constructor_error_second_argument_witness :
    propCause
      (construct ⟨0, "E", []⟩ "X" (.genericError none "disk full" "st")
        (.str "third") "st2") = .genericError none "disk full" "st" :=
  (constructor_error_second_argument ⟨0, "E", []⟩ "X"
    (.genericError none "disk full" "st") (.str "third") "st2" rfl).1

/-- C7: the low-level constructor does no validation of `code` against the
declared set: for every string `c` outside the declared codes it succeeds
(the constructor body is total — no throw), producing an instance with that
very `code`, and the instance's `message` resolves to `undefined`. -/
theorem constructor_accepts_unknown_code (T : Variant) (c : String)
    (m cs : JsValue) (stk : String) (h : c ∉ tableKeys T.codes) :
    propCode (construct T c m cs stk) = c ∧
    isSmartErrorProp (construct T c m cs stk) = true ∧
    propMessage T.codes (construct T c m cs stk) = none := by
  unfold construct
  split <;>
    simp [propCode, isSmartErrorProp, propMessage,
      tableGet_eq_none_of_not_mem T.codes c h]

/-- C7 witness: the code `'Nope'` is not declared by the variant, yet
construction yields an instance whose message is `undefined`. -/
theorem constructor_accepts_unknown_code_witness :
    propMessage [("Unexpected", "u")]
      (construct ⟨0, "E", [("Unexpected", "u")]⟩ "Nope" .undefined .undefined "st") =
      none :=
  (constructor_accepts_unknown_code ⟨0, "E", [("Unexpected", "u")]⟩ "Nope"
    .undefined .undefined "st" (by decide)).2.2

/-- C5: `message` is not cached at construction — it is the lookup of the
instance's `code` in the codes table as that table stands at access time, so
whenever a mutation changes the entry for the instance's code, a subsequent
`message` read on the already-constructed instance returns the current
entry (and hence a different value). -/
theorem message_read_is_late_bound (T : Variant) (c : String)
    (m cs : JsValue) (stk : String) (e e' : List (String × String))
    (h : tableGet e c ≠ tableGet e' c) :
    propMessage e (construct T c m cs stk) = tableGet e c ∧
    propMessage e' (construct T c m cs stk) = tableGet e' c ∧
    propMessage e (construct T c m cs stk) ≠
      propMessage e' (construct T c m cs stk) := by
  unfold construct propMessage
  split <;> simp [propCode, h]

/-- C5 witness: rebinding the table entry for `'A'` from `'old'` to `'new'`
changes the message of an instance constructed before the mutation. -/
theorem message_read_is_late_bound_witness :
    propMessage [("A", "new")]
      (construct ⟨0, "E", [("A", "old")]⟩ "A" .undefined .undefined "st") =
      some "new" :=
  (message_read_is_late_bound ⟨0, "E", [("A", "old")]⟩ "A" .undefined .undefined "st"
    [("A", "old")] [("A", "new")] (by decide)).2.1

end SmartErr

namespace SmartErr

/-- C10: the `is<K>` predicates read only the stored `code`, also on
escape-hatch instances: for a declared `K` and an instance built by the
low-level constructor with an arbitrary code string `c`, `is<K>` is true iff
`c = K`; at most one declared predicate is true on any instance; and when
`c` lies outside the declared set every declared predicate is false. -/
theorem predicates_determined_by_code (T : Variant) (K c : String)
    (m cs : JsValue) (stk : String) (hK : K ∈ tableKeys T.codes) :
    (isPred K (construct T c m cs stk) = true ↔ c = K) ∧
    (∀ K', K' ∈ tableKeys T.codes → K' ≠ K →
      ¬(isPred K (construct T c m cs stk) = true ∧
        isPred K' (construct T c m cs stk) = true)) ∧
    (c ∉ tableKeys T.codes → isPred K (construct T c m cs stk) = false) := by
  have hbase : ∀ K0, isPred K0 (construct T c m cs stk) = (c == K0) := by
    intro K0
    unfold construct
    split <;> rfl
  refine ⟨?_, ?_, ?_⟩
  · rw [hbase]
    exact beq_iff_eq
  · intro K' _ hne hboth
    obtain ⟨h1, h2⟩ := hboth
    rw [hbase, beq_iff_eq] at h1 h2
    exact hne (h2 ▸ h1 ▸ rfl)
  · intro hc
    rw [hbase, beq_eq_false_iff_ne]
    intro hck
    exact hc (hck ▸ hK)

/-- C10 witness: with declared codes `A`, `B`, an escape-hatch instance
built with the undeclared code `'Z'` satisfies no declared predicate. -/
theorem predicates_determined_by_code_witness :
    isPred "A" (construct ⟨0, "E", [("A", "a"), ("B", "b")]⟩ "Z"
      .undefined .undefined "st") = false :=
  (predicates_determined_by_code ⟨0, "E", [("A", "a"), ("B", "b")]⟩ "A" "Z"
    .undefined .undefined "st" (by decide)).2.2 (by decide)

/-- C2: `toJSON` returns `{name, code, metadata?, cause?, stack}` where
`metadata` is present iff not nullish, a cause with truthy `isSmartError` is
serialized through its own `toJSON`, a generic error-like cause is reduced
to `{code, message, stack}` carrying its own (possibly absent) `code`
without synthesizing one, any other non-nullish cause is embedded as-is,
and `stack` is always included. -/
theorem toJSON_structure (vid : Nat) (nm cd : String) (md cs : JsValue)
    (stk : String) :
    ∃ M C,
      toJSON (.smart vid nm cd md cs stk) = Json.smartOut nm cd M C stk ∧
      (isNullish md = true → M = none) ∧
      (isNullish md = false → M = some md) ∧
      (isNullish cs = true → C = none) ∧
      (isSmartErrorProp cs = true → C = some (toJSON cs)) ∧
      (∀ oc emsg est, cs = .genericError oc emsg est →
        C = some (Json.errOut oc emsg est)) ∧
      (isNullish cs = false → isErrorValue cs = false →
        C = some (Json.raw cs)) := by
  refine ⟨_, _, rfl, ?_, ?_, ?_, ?_, ?_, ?_⟩
  · intro h; rw [h]; rfl
  · intro h; rw [h]; rfl
  · intro h; rw [h]; rfl
  · intro h
    cases cs <;> simp_all [isSmartErrorProp, isNullish]
  · intro oc emsg est hcs
    subst hcs
    rfl
  · intro h1 h2
    cases cs <;> simp_all [isNullish, isErrorValue, isSmartErrorProp]

/-- C2 witness: a concrete instance with string metadata and no cause
serializes to the expected structure via `toJSON_structure`. -/
theorem toJSON_structure_witness :
    toJSON (.smart 0 "N" "C" (.str "m") .undefined "st") =
      Json.smartOut "N" "C" (some (.str "m")) none "st" := by
  obtain ⟨M, C, h1, _, h3, h4, _, _, _⟩ :=
    toJSON_structure 0 "N" "C" (.str "m") .undefined "st"
  rw [h1, h3 rfl, h4 rfl]

/-- C8: `toJSON` is idempotent and effect-free: the call leaves the instance
exactly as it was (the body only reads `_props`), so repeated calls return
structurally equal output and `code`, `metadata`, `cause`, `stack` are
unchanged after a call. -/
theorem toJSON_idempotent_and_pure (vid : Nat) (nm cd : String)
    (md cs : JsValue) (stk : String) :
    (toJSONcall (.smart vid nm cd md cs stk)).2 = .smart vid nm cd md cs stk ∧
    (toJSONcall ((toJSONcall (.smart vid nm cd md cs stk)).2)).1 =
      (toJSONcall (.smart vid nm cd md cs stk)).1 ∧
    propCode ((toJSONcall (.smart vid nm cd md cs stk)).2) =
      propCode (.smart vid nm cd md cs stk) ∧
    propMetadata ((toJSONcall (.smart vid nm cd md cs stk)).2) =
      propMetadata (.smart vid nm cd md cs stk) ∧
    propCause ((toJSONcall (.smart vid nm cd md cs stk)).2) =
      propCause (.smart vid nm cd md cs stk) ∧
    propStack ((toJSONcall (.smart vid nm cd md cs stk)).2) =
      propStack (.smart vid nm cd md cs stk) :=
  ⟨rfl, rfl, rfl, rfl, rfl, rfl⟩

/-- C9: two separate factory calls with identical name and codes produce
distinct, independent types: each type's creator yields instances of that
type, never of the other — there is no registry keyed by name making the
two interchangeable. -/
theorem separate_create_calls_distinct (i₁ i₂ : Nat) (T₁ T₂ : Variant)
    (hne : i₁ ≠ i₂)
    (h₁ : create i₁ (.str "Foo") (.obj [("A", "a")]) = .ok T₁)
    (h₂ : create i₂ (.str "Foo") (.obj [("A", "a")]) = .ok T₂)
    (m c : JsValue) (stk : String) :
    instanceOf (T₁.creatorFn "A" m c stk) T₁ = true ∧
    instanceOf (T₂.creatorFn "A" m c stk) T₂ = true ∧
    instanceOf (T₁.creatorFn "A" m c stk) T₂ = false ∧
    instanceOf (T₂.creatorFn "A" m c stk) T₁ = false := by
  have e₁ : CreateResult.ok (Variant.mk i₁ "Foo" [("A", "a")]) =
      CreateResult.ok T₁ := h₁
  have e₂ : CreateResult.ok (Variant.mk i₂ "Foo" [("A", "a")]) =
      CreateResult.ok T₂ := h₂
  injection e₁ with eT₁
  injection e₂ with eT₂
  subst eT₁
  subst eT₂
  have hb : ∀ (T U : Variant),
      instanceOf (T.creatorFn "A" m c stk) U = (T.id == U.id) := by
    intro T U
    unfold Variant.creatorFn construct
    split <;> rfl
  simp [hb, beq_eq_false_iff_ne, hne, Ne.symm hne]

/-- C9 witness: creators of two variants from identical `create` arguments
(but separate calls) do not produce instances of each other's type. -/
theorem separate_create_calls_distinct_witness :
    instanceOf ((Variant.mk 0 "Foo" [("A", "a")]).creatorFn "A"
      .undefined .undefined "st") (Variant.mk 1 "Foo" [("A", "a")]) = false :=
  (separate_create_calls_distinct 0 1 ⟨0, "Foo", [("A", "a")]⟩
    ⟨1, "Foo", [("A", "a")]⟩ (by decide) rfl rfl .undefined .undefined "st").2.2.1

end SmartErr
